import Mathlib

/-!
Shallow embedding of the CSV cleaning and type-inference core of the
repository (src/data_cleaning.py and src/data_processing.py), together with
theorems settling the specification claims about it.

Modelling conventions:
* Machine strings are Lean `String`s (lists of `Char`); the Python string
  functions used by the source (`re.sub` with the fixed patterns, `replace`,
  `lower`, `strip`) are modelled character-exactly on the ASCII range and on
  the two non-ASCII code points the development exercises: U+0130 (a word
  character whose `lower()` expands to the two characters i followed by
  U+0307) and U+0307 (a combining mark, neither word character nor
  whitespace). Other non-ASCII characters are conservatively treated as
  non-word and left unchanged by lowercasing, so every universally
  quantified sanitizer theorem carries an all-ASCII hypothesis.
* DuckDB relations are modelled as a header (list of column name / storage
  type pairs) plus a list of rows; the in-memory database is a map from
  relation names to relations.
* Exact rational arithmetic (`Rat`) replaces the engine's floating point;
  the z-score comparison `ABS(v - avg) / stddev < t` is embedded in its
  squared form `(v - avg)^2 < t^2 * var`, which is equivalent for the
  nonnegative thresholds used by the program since `stddev = sqrt var > 0`
  on the non-skipped columns.
* A Python exception escaping a function (such as the `ZeroDivisionError`
  raised by `infer_column_type` on an empty sample) is modelled as
  `Except.error ()`.
* The external `dateutil` parser is not part of the repository; it is kept
  abstract as a `DateUtil` record of a parse-success predicate and a
  formatter, per the spec's description of `is_date` and `format_date`.
-/

/- Rational arithmetic must evaluate inside `decide` proofs; the Batteries
definitions are sealed for rewriting purposes only. -/
unseal Rat.mul Rat.add Rat.sub Rat.inv Rat.ofScientific

deriving instance DecidableEq for Except

/-- Dynamic value stored in a relation cell (DuckDB value as seen through
the Python layer). -/
inductive Val where
  | null : Val
  | str : String → Val
  | int : Int → Val
  | real : Rat → Val
  | bool : Bool → Val
deriving DecidableEq, Repr

/-- A named-column relation: header of (column name, storage type name)
pairs plus rows of values, row-major as DuckDB returns them. -/
structure Relation where
  header : List (String × String)
  rows : List (List Val)
deriving DecidableEq, Repr

/-- The in-memory database: a map from relation names to relations. -/
def Store : Type := String → Option Relation

/-- The empty database. -/
def emptyStore : Store := fun _ => none

/-- Database with the given bindings (later entries shadowed by earlier). -/
def mkStore (l : List (String × Relation)) : Store :=
  fun n => (l.find? (fun p => p.1 = n)).map (fun p => p.2)

/-- Write a relation under a name (CREATE TABLE / in-place mutation). -/
def setRel (st : Store) (n : String) (r : Relation) : Store :=
  fun m => if m = n then some r else st m

/-- DROP TABLE. -/
def dropRel (st : Store) (n : String) : Store :=
  fun m => if m = n then none else st m

/-- Read a relation, defaulting to an empty one (the source always reads
names it has just created). -/
def getRelD (st : Store) (n : String) : Relation :=
  (st n).getD ⟨[], []⟩

/-- Number of rows of a relation. -/
def nrows (r : Relation) : Nat := r.rows.length

/-- Number of columns of a relation. -/
def ncols (r : Relation) : Nat := r.header.length

/-- Cell of row `r` at column index `i`; missing positions read as NULL. -/
def cellD (r : List Val) (i : Nat) : Val := r.getD i Val.null

/-- The values of column `i`, top to bottom. -/
def colVals (rel : Relation) (i : Nat) : List Val :=
  rel.rows.map (fun r => cellD r i)

/- ### Character-level model of the Python string operations (ASCII range) -/

/-- Model of the regex class `\w` (word character): ASCII letters, digits
and underscore, plus the exercised non-ASCII letter U+0130 (LATIN CAPITAL
LETTER I WITH DOT ABOVE, category Lu, matched by Python's Unicode `\w`).
The combining mark U+0307 is correctly not a word character. -/
def isWordCharA (c : Char) : Bool :=
  decide ((48 ≤ c.toNat ∧ c.toNat ≤ 57) ∨ (65 ≤ c.toNat ∧ c.toNat ≤ 90) ∨
    (97 ≤ c.toNat ∧ c.toNat ≤ 122) ∨ c.toNat = 95 ∨ c.toNat = 304)

/-- ASCII model of the regex class `\s` / `str.strip` whitespace:
space, tab, newline, carriage return, vertical tab, form feed. -/
def isSpaceA (c : Char) : Bool :=
  decide (c.toNat = 32 ∨ c.toNat = 9 ∨ c.toNat = 10 ∨ c.toNat = 13 ∨
    c.toNat = 11 ∨ c.toNat = 12)

/-- ASCII uppercase letter test. -/
def isUpperA (c : Char) : Bool := decide (65 ≤ c.toNat ∧ c.toNat ≤ 90)

/-- ASCII character test. -/
def isAsciiChar (c : Char) : Bool := decide (c.toNat ≤ 127)

/-- ASCII lowercasing of one character (used for the case-insensitive
float-literal keywords and as the single-character part of `pyLowerChar`). -/
def pyToLower (c : Char) : Char :=
  if 65 ≤ c.toNat ∧ c.toNat ≤ 90 then Char.ofNat (c.toNat + 32) else c

/-- Model of Python `str.lower` on one character, returning the possibly
multi-character lowercase mapping: ASCII uppercase maps down by 32, and
U+0130 expands per Unicode SpecialCasing to i followed by the combining
mark U+0307 — the expansion Python performs and the reason the sanitizer
is not idempotent on non-ASCII input. Other characters map to themselves. -/
def pyLowerChar (c : Char) : List Char :=
  if c.toNat = 304 then [Char.ofNat 105, Char.ofNat 775]
  else if 65 ≤ c.toNat ∧ c.toNat ≤ 90 then [Char.ofNat (c.toNat + 32)]
  else [c]

/-- Python `str.strip()` on a character list: drop leading and trailing
whitespace. -/
def stripWS (l : List Char) : List Char :=
  ((l.dropWhile isSpaceA).reverse.dropWhile isSpaceA).reverse

/-- Python `str.strip('_')`: drop leading and trailing underscores. -/
def stripUnderscores (l : List Char) : List Char :=
  ((l.dropWhile (fun c => c = '_')).reverse.dropWhile (fun c => c = '_')).reverse

/-- The character kept by `re.sub(r'[^\w\s_]', '', name)`. -/
def keepChar (c : Char) : Bool := isWordCharA c || isSpaceA c

/-- Python `str.replace(' ', '_')` on one character. -/
def replaceSpace (c : Char) : Char := if c = ' ' then '_' else c

/-- Embeds `sanitize_column_name` (src/data_cleaning.py lines 12-29) on
character lists: drop characters outside `\w`/`\s`, replace each space by an
underscore, lowercase, strip leading/trailing underscores. -/
def sanitizeChars (l : List Char) : List Char :=
  stripUnderscores (((l.filter keepChar).map replaceSpace).flatMap pyLowerChar)

/-- The sanitizer chain restricted to single-character lowercasing: equal to
`sanitizeChars` on all-ASCII input (where `str.lower` never expands), and
the form in which the sanitizer lemmas are proved. -/
def sanitizeCharsAscii (l : List Char) : List Char :=
  stripUnderscores (((l.filter keepChar).map replaceSpace).map pyToLower)

/-- Embeds `sanitize_column_name` (src/data_cleaning.py lines 12-29). -/
def sanitize_column_name (s : String) : String := ⟨sanitizeChars s.data⟩

/-- Collapse each maximal whitespace run into a single underscore; the
remaining characters pass through. Helper for the spec-side sanitizer. -/
def collapseWSAux : List Char → Bool → List Char
  | [], _ => []
  | c :: rest, inRun =>
    if isSpaceA c then
      (if inRun then collapseWSAux rest true else '_' :: collapseWSAux rest true)
    else c :: collapseWSAux rest false

/-- Modelled from the spec: the sanitizer described in spec.md section 4.1 —
strip characters other than word characters, underscore and whitespace;
replace each internal whitespace run with a single underscore; lowercase;
trim leading and trailing underscores. Stated separately from
`sanitize_column_name` so the two can be compared. -/
def specSanitizeName (s : String) : String :=
  ⟨stripUnderscores ((collapseWSAux (s.data.filter keepChar) false).map pyToLower)⟩

/- ### Python numeric literal parsing, as used by the type predicates -/

/-- Remove the first `k` occurrences of `'.'` from a character list
(`str.replace('.', '', k)` for nonnegative `k`). -/
def removeDots : Nat → List Char → List Char
  | 0, l => l
  | _ + 1, [] => []
  | k + 1, c :: rest =>
    if c = '.' then removeDots k rest else c :: removeDots (k + 1) rest

/-- Embeds `val.replace('.', '', val.count('.') - 1).replace(',', '').strip()`,
the normalisation shared by `is_type`, `is_integer` and `is_float`
(src/data_processing.py lines 24, 34, 41). With no dot the count is `-1`,
which Python treats as replace-all (vacuous); with `n ≥ 1` dots the first
`n - 1` are removed, keeping only the last. -/
def pyTransformL (l : List Char) : List Char :=
  stripWS ((removeDots (l.count '.' - 1) l).filter (fun c => c ≠ ','))

/-- String version of `pyTransformL`. -/
def pyTransform (s : String) : String := ⟨pyTransformL s.data⟩

/-- Python `str.strip()`. -/
def pyStrip (s : String) : String := ⟨stripWS s.data⟩

/-- Python `str.lower()`. -/
def pyLowerStr (s : String) : String := ⟨s.data.flatMap pyLowerChar⟩

/-- Digit-run continuation for Python numeric literals: single underscores
are allowed between digits only. Assumes the previous character was a
digit. -/
def digitsAux : List Char → Bool
  | [] => true
  | c :: rest =>
    if c.isDigit then digitsAux rest
    else if c = '_' then
      match rest with
      | d :: rest2 => d.isDigit && digitsAux rest2
      | [] => false
    else false

/-- A valid Python digit run: nonempty, begins with a digit, single
underscores only between digits. -/
def digitsOK : List Char → Bool
  | [] => false
  | c :: rest => c.isDigit && digitsAux rest

/-- Numeric value of a digit run (underscores skipped). -/
def digitsVal (l : List Char) : Nat :=
  l.foldl (fun acc c => if c.isDigit then acc * 10 + (c.toNat - 48) else acc) 0

/-- Embeds Python `int(s)`: surrounding whitespace, optional sign, digit
run with optional grouping underscores. -/
def pyParseInt (s : String) : Option Int :=
  match stripWS s.data with
  | '+' :: rest => if digitsOK rest then some (digitsVal rest) else none
  | '-' :: rest => if digitsOK rest then some (-(digitsVal rest : Int)) else none
  | rest => if digitsOK rest then some (digitsVal rest) else none

/-- Mantissa of a Python float literal: `d`, `d.`, `d.d` or `.d` where `d`
is a digit run. -/
def mantissaOK (l : List Char) : Bool :=
  if l.count '.' = 0 then digitsOK l
  else if l.count '.' = 1 then
    let a := l.takeWhile (fun c => c ≠ '.')
    let b := (l.dropWhile (fun c => c ≠ '.')).drop 1
    if a.isEmpty then digitsOK b
    else if b.isEmpty then digitsOK a
    else digitsOK a && digitsOK b
  else false

/-- Exponent part of a Python float literal (after the `e`). -/
def expOK : List Char → Bool
  | '+' :: r => digitsOK r
  | '-' :: r => digitsOK r
  | r => digitsOK r

/-- Body of a Python float literal after the optional sign. -/
def pyFloatBody (l : List Char) : Bool :=
  match l.span (fun c => c ≠ 'e' && c ≠ 'E') with
  | (m, []) => mantissaOK m
  | (m, _ :: ex) => mantissaOK m && expOK ex

/-- Embeds acceptance of Python `float(s)`: whitespace, optional sign, then
a float body or one of the words inf / infinity / nan (case-insensitive). -/
def pyFloatOK (s : String) : Bool :=
  let l := stripWS s.data
  let body := match l with
    | '+' :: r => r
    | '-' :: r => r
    | r => r
  let lowered := body.map pyToLower
  lowered = "inf".data || lowered = "infinity".data || lowered = "nan".data ||
    pyFloatBody body

/- ### The five column-type predicates (src/data_processing.py lines 20-58) -/

/-- Embeds `is_type(val, int)` (src/data_processing.py lines 20-30): False
on blank input, otherwise try `int(...)` on the normalised value. -/
def is_type_int (val : String) : Bool :=
  if (pyStrip val).data.isEmpty then false
  else (pyParseInt (pyTransform val)).isSome

/-- Embeds `is_type(val, float)` (src/data_processing.py lines 20-30). -/
def is_type_float (val : String) : Bool :=
  if (pyStrip val).data.isEmpty then false
  else pyFloatOK (pyTransform val)

/-- Embeds `is_integer` (src/data_processing.py lines 33-38): the normalised
value parses as an int within the signed 32-bit range. -/
def is_integer (s : String) : Bool :=
  let v := pyTransform s
  if !v.data.isEmpty && is_type_int v then
    match pyParseInt v with
    | some n => decide (-2147483648 ≤ n ∧ n ≤ 2147483647)
    | none => false
  else false

/-- Embeds `is_float` (src/data_processing.py lines 40-42): normalised value
nonempty, not an `is_integer`, and accepted by `float(...)`. -/
def is_float (s : String) : Bool :=
  let v := pyTransform s
  !v.data.isEmpty && !is_integer v && is_type_float v

/-- Embeds `is_boolean` (src/data_processing.py lines 56-58). -/
def is_boolean (s : String) : Bool :=
  ["true", "false", "yes", "no", "y", "n", "1", "0"].contains
    (pyLowerStr (pyStrip s))

/-- The external `dateutil` collaborator, kept abstract: `parseOk s` models
`dateutil.parser.parse(s, fuzzy=False)` succeeding, `fmt s` models
`format_date` returning a formatted date or None. -/
structure DateUtil where
  parseOk : String → Bool
  fmt : String → Option String

/-- Embeds `is_date` (src/data_processing.py lines 44-53): nonempty string
that `dateutil` parses and that contains at least one digit. -/
def is_date (du : DateUtil) (s : String) : Bool :=
  if s.data.isEmpty then false
  else du.parseOk s && s.data.any (fun c => c.isDigit)

/-- Python `str(data)` on a DuckDB cell value as sampled by the inference
engine (only non-null values are sampled). Rationals with denominator 1
print like Python floats `n.0`; other rationals keep Lean's fraction
rendering, a divergence never exercised by the development. -/
def strOfVal : Val → String
  | Val.null => "None"
  | Val.str s => s
  | Val.int n => toString n
  | Val.real q => if q.den = 1 then toString q.num ++ ".0" else toString q
  | Val.bool b => if b then "True" else "False"

/- ### Missing-data handler (src/data_cleaning.py lines 35-104) -/

/-- Column `i` has no non-null value (`COUNT(col) ... WHERE col IS NOT NULL`
is zero). -/
def colAllNull (rel : Relation) (i : Nat) : Bool :=
  (colVals rel i).all (fun v => v = Val.null)

/-- Drop every column whose values are all NULL (the sequential
`ALTER TABLE ... DROP COLUMN` loop: dropping one column does not change
another column's null counts, so the drops commute with the counting).
When at least one column is kept — the hypothesis under which the
development uses this function — every individual drop is legal for the
engine; a relation with no non-null column would instead make the engine
raise on the last drop, a path this total model does not represent. -/
def dropAllNullCols (rel : Relation) : Relation :=
  let keepIdx := (List.range rel.header.length).filter
    (fun i => !colAllNull rel i)
  ⟨keepIdx.map (fun i => rel.header.getD i ("", "")),
   rel.rows.map (fun r => keepIdx.map (fun i => cellD r i))⟩

/-- Delete every row all of whose (surviving) column values are NULL
(`DELETE FROM rel WHERE c1 IS NULL AND ... AND cn IS NULL`). -/
def deleteAllNullRows (rel : Relation) : Relation :=
  ⟨rel.header,
   rel.rows.filter (fun r =>
     !(List.range rel.header.length).all (fun i => cellD r i = Val.null))⟩

/-- Numeric content of a cell, if any. -/
def toQ : Val → Option Rat
  | Val.int n => some (n : Rat)
  | Val.real q => some q
  | _ => none

/-- Insertion into a list sorted by strictly descending count; equal counts
keep their existing order, so the overall sort is stable. -/
def insertByCount (x : Val × Nat) : List (Val × Nat) → List (Val × Nat)
  | [] => [x]
  | y :: rest => if x.2 > y.2 then x :: y :: rest else y :: insertByCount x rest

/-- Stable sort by descending count. -/
def sortByCountDesc : List (Val × Nat) → List (Val × Nat)
  | [] => []
  | x :: rest => insertByCount x (sortByCountDesc rest)

/-- Group the values of a list (first-occurrence order) with their
multiplicities, as `GROUP BY` does; the NULL group is included. -/
def groupCounts (l : List Val) : List (Val × Nat) :=
  ((l.foldl (fun acc v =>
    if acc.contains v then acc else acc ++ [v]) ([] : List Val))).map
    (fun v => (v, l.count v))

/-- Insert into an ascending sorted list of rationals. -/
def insertAsc (x : Rat) : List Rat → List Rat
  | [] => [x]
  | y :: rest => if x ≤ y then x :: y :: rest else y :: insertAsc x rest

/-- Insertion sort, ascending. -/
def sortAsc : List Rat → List Rat
  | [] => []
  | x :: rest => insertAsc x (sortAsc rest)

/-- DuckDB `MEDIAN`: middle element of the sorted non-null values, the
average of the two middle ones for an even count (modelled on the numeric
content of the column). Total, returning 0 on an empty list — the source
only evaluates it on columns that survived the all-null drop. -/
def medianQ (l : List Rat) : Rat :=
  let sorted := sortAsc l
  let n := sorted.length
  if n = 0 then 0
  else if n % 2 = 1 then sorted.getD (n / 2) 0
  else (sorted.getD (n / 2 - 1) 0 + sorted.getD (n / 2) 0) / 2

/-- Python truthiness of a DuckDB value: None, empty string, zero and False
are falsy. -/
def pyTruthy : Val → Bool
  | Val.null => false
  | Val.str s => !s.data.isEmpty
  | Val.int n => n ≠ 0
  | Val.real q => q ≠ 0
  | Val.bool b => b

/-- `df[column].fillna(v)`: replace the NULLs of column `i` by `v`. -/
def fillna (rows : List (List Val)) (i : Nat) (v : Val) : List (List Val) :=
  rows.map (fun r => r.set i (if cellD r i = Val.null then v else cellD r i))

/-- One step of the imputation loop (src/data_cleaning.py lines 78-96):
statistics are computed from `snapshot` (the relation, which the loop never
mutates) while the fill is applied to `df`. `typ` is the storage type the
loop zips against the column — taken from the pre-drop type list, exactly as
the source does. -/
def imputeColumn (snapshot : Relation) (df : Relation) (colName : String)
    (typ : String) : Relation :=
  match snapshot.header.findIdx? (fun p => p.1 = colName) with
  | none => df
  | some i =>
    if ["INTEGER", "BIGINT", "DOUBLE", "DECIMAL"].contains typ then
      let med := medianQ ((colVals snapshot i).filterMap toQ)
      ⟨df.header, fillna df.rows i (Val.real med)⟩
    else
      let sorted := sortByCountDesc (groupCounts (colVals snapshot i))
      let modeVal : Option Val := (sorted.head?).map (fun p => p.1)
      let fillVal := match modeVal with
        | some v => if pyTruthy v then v else Val.str ""
        | none => Val.str ""
      ⟨df.header, fillna df.rows i fillVal⟩

/-- The imputation loop: `for column, type in zip(columns, types)` where
`columns` is the list of surviving column names and `types` the pre-drop
type list — after a drop the zip misaligns, exactly as in the source. -/
def imputeRelation (types : List String) (rel : Relation) : Relation :=
  (((rel.header.map (fun p => p.1)).zip types).foldl
    (fun df p => imputeColumn rel df p.1 p.2) rel)

/-- Embeds `handle_missing_data` (src/data_cleaning.py lines 35-104): drop
all-null columns in place, return the input relation if none survive;
delete all-null rows in place, return the input relation if none survive;
otherwise impute into a DataFrame copy and register it as a new relation
named `<input>_cleaned`. The two early returns embed the source's lines
59-72 but are dead code against DuckDB, which refuses to drop a table's
last column and raises instead of reaching them (and a surviving column
rules out deleting every row); no theorem of this development relies on
those branches — every sanitizer-stage theorem that touches this function
assumes at least one surviving column and row. -/
def handle_missing_data (st : Store) (relation_name : String) :
    Store × String :=
  let rel := getRelD st relation_name
  let types := rel.header.map (fun p => p.2)
  let rel1 := dropAllNullCols rel
  let st1 := setRel st relation_name rel1
  if rel1.header.isEmpty then (st1, relation_name)
  else
    let rel2 := deleteAllNullRows rel1
    let st2 := setRel st1 relation_name rel2
    if rel2.rows.isEmpty then (st2, relation_name)
    else
      let cleaned := imputeRelation types rel2
      let newName := relation_name ++ "_cleaned"
      (setRel st2 newName cleaned, newName)

/- ### Outlier filter (src/data_cleaning.py lines 107-141) -/

/-- SQL three-valued AND (NULL as `none`). -/
def sqlAnd : Option Bool → Option Bool → Option Bool
  | some false, _ => some false
  | _, some false => some false
  | some true, some true => some true
  | _, _ => none

/-- SQL three-valued NOT. -/
def sqlNot : Option Bool → Option Bool
  | some b => some !b
  | none => none

/-- Conjunction of a list of SQL conditions. -/
def sqlAndList (l : List (Option Bool)) : Option Bool :=
  l.foldr sqlAnd (some true)

/-- Statistics of the z-score clause for one numeric column: count of
non-null values, `AVG` and sample variance (`STDDEV_SAMP` squared). -/
def colStats (rel : Relation) (i : Nat) : Nat × Rat × Rat :=
  let vals := (colVals rel i).filterMap toQ
  let n := vals.length
  let avg := (vals.foldr (fun a b => a + b) 0) / (n : Rat)
  let svar := (vals.foldr (fun a b => (a - avg) ^ 2 + b) 0) / ((n : Rat) - 1)
  (n, avg, svar)

/-- The z-score clause `ABS(col - avg) / stddev < t` evaluated on one cell,
in squared form (`stddev` is positive on non-skipped columns, so for the
nonnegative thresholds used this is the same comparison); NULL cells give
SQL NULL. -/
def zClause (avg svar t : Rat) (v : Val) : Option Bool :=
  match toQ v with
  | some q => some (decide ((q - avg) ^ 2 < t ^ 2 * svar))
  | none => none

/-- The per-column clauses of `handle_outliers`: one for each column whose
storage type is numeric and whose sample standard deviation is neither NULL
(fewer than two non-null values) nor zero — `if not stddev_col: continue`. -/
def outlierClauses (rel : Relation) : List (Nat × Rat × Rat) :=
  ((List.range rel.header.length).filter (fun i =>
    ["INTEGER", "BIGINT", "FLOAT", "DOUBLE"].contains
      ((rel.header.getD i ("", "")).2))).filterMap
    (fun i =>
      let s := colStats rel i
      if s.1 < 2 ∨ s.2.2 = 0 then none else some (i, s.2.1, s.2.2))

/-- Embeds `handle_outliers` (src/data_cleaning.py lines 107-141): build all
z-score clauses from the pre-deletion statistics, then run a single
`DELETE FROM rel WHERE NOT (clause1 AND ... AND clausen)`; with no clause no
statement is executed. -/
def handle_outliers (st : Store) (relation_name : String) (t : Rat) :
    Store × String :=
  let rel := getRelD st relation_name
  let clauses := outlierClauses rel
  let rel2 :=
    if clauses.isEmpty then rel
    else
      ⟨rel.header,
       rel.rows.filter (fun r =>
         !(sqlNot (sqlAndList (clauses.map (fun c =>
             zClause c.2.1 c.2.2 t (cellD r c.1)))) = some true))⟩
  (setRel st relation_name rel2, relation_name)

/- ### Type inference engine (src/data_processing.py lines 76-109) -/

/-- First-occurrence distinct values (`SELECT DISTINCT`). -/
def distinctVals (l : List Val) : List Val :=
  l.foldl (fun acc v => if acc.contains v then acc else acc ++ [v]) []

/-- The sample drawn for a column: up to 100 distinct non-null values,
rendered through Python `str` (src/data_processing.py lines 77-79). -/
def sampleCol (rel : Relation) (i : Nat) : List String :=
  ((distinctVals ((colVals rel i).filter (fun v => v ≠ Val.null))).take
    100).map strOfVal

/-- The per-type match counters, in the source's dictionary order; FLOAT
counts only values not already counted as INTEGER (the `elif`), and VARCHAR
has no predicate (src/data_processing.py lines 81-98). -/
def typeCounts (du : DateUtil) (sample : List String) : List (String × Nat) :=
  [("INTEGER", sample.countP (fun s => is_integer s)),
   ("FLOAT", sample.countP (fun s => !is_integer s && is_float s)),
   ("DATE", sample.countP (fun s => is_date du s)),
   ("BOOLEAN", sample.countP (fun s => is_boolean s)),
   ("VARCHAR", 0)]

/-- The per-type success rates: matches divided by the sample size
(src/data_processing.py line 101). -/
def successRates (du : DateUtil) (sample : List String) : List (String × Rat) :=
  (typeCounts du sample).map
    (fun p => (p.1, (p.2 : Rat) / (sample.length : Rat)))

/-- The maximum success rate over the five candidate types. Since the
VARCHAR rate 0 is always present, folding with 0 equals Python's `max`. -/
def maxSuccessRate (du : DateUtil) (sample : List String) : Rat :=
  (successRates du sample).foldr (fun p m => max p.2 m) 0

/-- Lexicographic code-point comparison of character lists, the order
Python uses on strings. -/
def charListLt : List Char → List Char → Bool
  | [], [] => false
  | [], _ :: _ => true
  | _ :: _, [] => false
  | a :: as, b :: bs =>
    if a < b then true else if b < a then false else charListLt as bs

/-- Binary maximum in the code-point order Python uses on strings. -/
def strMax (a b : String) : String := if charListLt a.data b.data then b else a

/-- Python `max` over the keys holding the maximum rate (string order);
folding with the empty string equals `max` because the list is nonempty
whenever the branch is reached. -/
def maxKeyAtRate (l : List (String × Rat)) : String :=
  l.foldr (fun p m => strMax p.1 m) ""

/-- Embeds `infer_column_type` (src/data_processing.py lines 76-109) on an
already-drawn sample. On an empty sample the success-rate comprehension
divides by `len(sample_data) = 0`: a `ZeroDivisionError`, modelled as
`Except.error ()`. Otherwise: the type of maximum success rate, demoted to
VARCHAR whenever that maximum is below the 0.5 threshold; ties go to the
alphabetically greatest key. -/
def inferColumnType (du : DateUtil) (sample : List String) :
    Except Unit String :=
  if sample.length = 0 then Except.error ()
  else
    let rates := successRates du sample
    if maxSuccessRate du sample < 1 / 2 then Except.ok "VARCHAR"
    else Except.ok (maxKeyAtRate (rates.filter
      (fun p => p.2 = maxSuccessRate du sample)))

/- ### Type coercion engine (src/data_processing.py lines 67-74, 111-188) -/

/-- SQL `TRIM`: strip spaces. -/
def sqlTrim (s : String) : String :=
  ⟨((s.data.dropWhile (fun c => c = ' ')).reverse.dropWhile
    (fun c => c = ' ')).reverse⟩

/-- DuckDB `CAST(s AS INTEGER)` on a string: trimmed optional sign and
digits (no grouping underscores). -/
def castInt (s : String) : Option Int :=
  match (sqlTrim s).data with
  | '+' :: rest =>
    if !rest.isEmpty && rest.all (fun c => c.isDigit)
    then some (digitsVal rest) else none
  | '-' :: rest =>
    if !rest.isEmpty && rest.all (fun c => c.isDigit)
    then some (-(digitsVal rest : Int)) else none
  | rest =>
    if !rest.isEmpty && rest.all (fun c => c.isDigit)
    then some (digitsVal rest) else none

/-- Value of a digit run with an optional fractional part and exponent, as a
rational. -/
def ratOfParts (intPart fracPart : List Char) (ex : Int) : Rat :=
  ((digitsVal intPart : Rat) +
    (digitsVal fracPart : Rat) / ((10 : Rat) ^ fracPart.length)) *
    ((10 : Rat) ^ ex)

/-- DuckDB `CAST(s AS FLOAT)` on a string, modelled exactly on finite
decimal/exponent literals (no inf/nan handling; the call sites guard with
`is_float`). -/
def castFloat (s : String) : Option Rat :=
  let l := (sqlTrim s).data
  let sign : Rat := if l.head? = some '-' then -1 else 1
  let body := match l with
    | '+' :: r => r
    | '-' :: r => r
    | r => r
  let mant := (body.span (fun c => c ≠ 'e' && c ≠ 'E')).1
  let exChars := ((body.span (fun c => c ≠ 'e' && c ≠ 'E')).2).drop 1
  let ex : Int := match exChars with
    | [] => 0
    | '+' :: r => (digitsVal r : Int)
    | '-' :: r => -(digitsVal r : Int)
    | r => (digitsVal r : Int)
  let intPart := mant.takeWhile (fun c => c ≠ '.')
  let fracPart := (mant.dropWhile (fun c => c ≠ '.')).drop 1
  if pyFloatBody body then some (sign * ratOfParts intPart fracPart ex)
  else none

/-- DuckDB `CAST(s AS BOOLEAN)` on a string (the call sites guard with
`is_boolean`). -/
def castBool (s : String) : Option Bool :=
  let v := pyLowerStr (sqlTrim s)
  if ["true", "t", "yes", "y", "1"].contains v then some true
  else if ["false", "f", "no", "n", "0"].contains v then some false
  else none

/-- Embeds `compute_mean_or_median` for INTEGER (src/data_processing.py
lines 182-183): `MEDIAN(CAST(REPLACE(col, ',', '') AS INTEGER))` over the
rows whose value passes `is_integer` (NULLs never pass: the predicate UDF
maps NULL to NULL). -/
def columnIntMedian (rel : Relation) (i : Nat) : Rat :=
  medianQ (((colVals rel i).filter
    (fun v => v ≠ Val.null && is_integer (strOfVal v))).filterMap
    (fun v => (castInt ⟨(strOfVal v).data.filter (fun c => c ≠ ',')⟩).map
      (fun n => (n : Rat))))

/-- Embeds `compute_mean_or_median` for FLOAT (src/data_processing.py
lines 180-181): `AVG(CAST(REPLACE(col, ',', '') AS FLOAT))` over the rows
whose value passes `is_float`. -/
def columnFloatMean (rel : Relation) (i : Nat) : Rat :=
  let vals := ((colVals rel i).filter
    (fun v => v ≠ Val.null && is_float (strOfVal v))).filterMap
    (fun v => castFloat ⟨(strOfVal v).data.filter (fun c => c ≠ ',')⟩)
  (vals.foldr (fun a b => a + b) 0) / (vals.length : Rat)

/-- The `TRANSFORMATION_LOGIC` CASE expression for one cell
(src/data_processing.py lines 67-74). `repl` is the imputation constant for
INTEGER/FLOAT (the interpolated median/mean). The boolean and date branches
receive NULL unchanged because the predicate UDFs map NULL to NULL, making
the CASE condition non-true. -/
def transformCell (du : DateUtil) (typ : String) (repl : Rat) (v : Val) : Val :=
  if typ = "INTEGER" then
    if v = Val.null ∨ (sqlTrim (strOfVal v)).data.isEmpty ∨
        !is_integer (strOfVal v) then Val.real repl
    else
      match castInt ⟨(strOfVal v).data.filter (fun c => c ≠ ',')⟩ with
      | some n => Val.int n
      | none => Val.null
  else if typ = "FLOAT" then
    if v = Val.null ∨ (sqlTrim (strOfVal v)).data.isEmpty ∨
        !is_float (strOfVal v) then Val.real repl
    else
      match castFloat ⟨(strOfVal v).data.filter (fun c => c ≠ ',')⟩ with
      | some q => Val.real q
      | none => Val.null
  else if typ = "BOOLEAN" then
    if v = Val.null then Val.null
    else if is_boolean (strOfVal v) then
      match castBool (strOfVal v) with
      | some b => Val.bool b
      | none => Val.null
    else Val.null
  else if typ = "DATE" then
    if v = Val.null then Val.null
    else if is_date du (strOfVal v) then
      match du.fmt (strOfVal v) with
      | some d => Val.str d
      | none => Val.null
    else Val.null
  else v

/-- One iteration of the `infer_and_set_datatypes` column loop
(src/data_processing.py lines 147-175): infer the type from a sample (the
inference error propagates), compute the imputation constant when needed,
then stage ADD COLUMN / UPDATE / DROP COLUMN / RENAME — the net effect
replaces the column and moves it to the end of the header. -/
def migrateColumn (du : DateUtil) (rel : Relation) (col : String) :
    Except Unit Relation :=
  match rel.header.findIdx? (fun p => p.1 = col) with
  | none => Except.ok rel
  | some i =>
    match inferColumnType du (sampleCol rel i) with
    | Except.error e => Except.error e
    | Except.ok t =>
      let repl : Rat :=
        if t = "INTEGER" then columnIntMedian rel i
        else if t = "FLOAT" then columnFloatMean rel i
        else 0
      Except.ok
        ⟨rel.header.eraseIdx i ++ [(col, t)],
         rel.rows.map (fun r =>
           r.eraseIdx i ++ [transformCell du t repl (cellD r i)])⟩

/-- The column loop of `infer_and_set_datatypes`, over the column list read
before the loop starts. -/
def migrateAll (du : DateUtil) (rel : Relation) :
    List String → Except Unit Relation
  | [] => Except.ok rel
  | c :: cs =>
    match migrateColumn du rel c with
    | Except.error e => Except.error e
    | Except.ok rel2 => migrateAll du rel2 cs

/-- Embeds `infer_and_set_datatypes` (src/data_processing.py lines
125-177): per-column inference and staged coercion, mutating the named
relation in place; an exception escaping the loop propagates. -/
def infer_and_set_datatypes (du : DateUtil) (st : Store) (name : String) :
    Except Unit Store :=
  match migrateAll du (getRelD st name) ((getRelD st name).header.map
      (fun p => p.1)) with
  | Except.error e => Except.error e
  | Except.ok rel2 => Except.ok (setRel st name rel2)

/- ### Pipeline orchestrator (src/data_cleaning.py lines 143-204) -/

/-- Rename every column through the sanitizer (the
`ALTER TABLE ... RENAME COLUMN` loop of src/data_cleaning.py lines
178-183). -/
def sanitizeHeader (rel : Relation) : Relation :=
  ⟨rel.header.map (fun p => (sanitize_column_name p.1, p.2)), rel.rows⟩

/-- Embeds `clean_and_store_data` (src/data_cleaning.py lines 143-204)
from the point where the CSV has been parsed into `raw` and the upload
identifier generated: load into a temporary relation, sanitize the column
names, run the missing-data handler and the outlier filter (default
threshold 3), infer and set datatypes, store the result under the upload
identifier, and drop the temporary relation. An exception escaping a stage
aborts the pipeline. Returns the final store, the upload identifier and the
stored final relation. -/
def clean_and_store_data (du : DateUtil) (st : Store) (raw : Relation)
    (uploadId : String) : Except Unit (Store × String × Relation) :=
  let relName := "tmp_" ++ uploadId
  let st1 := setRel st relName raw
  let st2 := setRel st1 relName (sanitizeHeader (getRelD st1 relName))
  let hm := handle_missing_data st2 relName
  let ho := handle_outliers hm.1 hm.2 3
  match infer_and_set_datatypes du ho.1 ho.2 with
  | Except.error e => Except.error e
  | Except.ok st3 =>
    let fin := getRelD st3 ho.2
    Except.ok (dropRel (setRel st3 uploadId fin) relName, uploadId, fin)

/-- The final relation produced by a completed pipeline run, if it
completed. -/
def pipelineFinal (du : DateUtil) (st : Store) (raw : Relation)
    (uploadId : String) : Option Relation :=
  match clean_and_store_data du st raw uploadId with
  | Except.ok out => some out.2.2
  | Except.error _ => none

/- ### Concrete instances used by the claim theorems -/

/-- A `dateutil` model whose parser never succeeds; the development only
feeds it digitless strings, on which `is_date` is false regardless of the
parser because of the contains-a-digit conjunct. -/
def duNone : DateUtil := ⟨fun _ => false, fun _ => none⟩

/-- The single numeric column [9, 10, 11, 10, 100000] of spec.md
Scenario 3. -/
def scenario3Rel : Relation :=
  ⟨[("x", "INTEGER")],
   [[Val.int 9], [Val.int 10], [Val.int 11], [Val.int 10], [Val.int 100000]]⟩

/-- A database holding only the Scenario 3 relation under the name "t". -/
def scenario3Store : Store := mkStore [("t", scenario3Rel)]

/-- Two VARCHAR columns of which the first is entirely NULL and the second
never NULL: the handler drops column "a" in place (legal, since "b"
remains) and then takes its main imputing path with no ties in any mode
query. -/
def mutateRel : Relation :=
  ⟨[("a", "VARCHAR"), ("b", "VARCHAR")],
   [[Val.null, Val.str "x"], [Val.null, Val.str "x"]]⟩

/-- The string holding the single character U+0130 (LATIN CAPITAL LETTER I
WITH DOT ABOVE), whose Python `lower()` expands to i followed by the
combining mark U+0307. -/
def dotIStr : String := ⟨[Char.ofNat 304]⟩

/-- Two VARCHAR columns; the first is [a, NULL, NULL], so its most frequent
group under the source's GROUP BY is the NULL group while its most frequent
non-null value is "a". -/
def modeBugRel : Relation :=
  ⟨[("c1", "VARCHAR"), ("c2", "VARCHAR")],
   [[Val.str "a", Val.str "x"], [Val.null, Val.str "y"],
    [Val.null, Val.str "z"]]⟩

/-- Two columns with some NULLs but no all-null column or row: the
missing-data handler's main (imputing) path. -/
def mainPathRel : Relation :=
  ⟨[("a", "INTEGER"), ("b", "VARCHAR")],
   [[Val.int 1, Val.str "u"], [Val.null, Val.str "u"],
    [Val.int 3, Val.null]]⟩

/-- An 11 x 11 integer relation with 1 on the diagonal and 0 elsewhere.
Every row is a z-score outlier (z = 10 / sqrt 11 > 3) in its own diagonal
column, so the outlier filter's single DELETE removes every row. -/
def diagRel : Relation :=
  ⟨(List.range 11).map (fun j => ("c" ++ toString j, "BIGINT")),
   (List.range 11).map (fun i =>
     (List.range 11).map (fun j => if i = j then Val.int 1 else Val.int 0))⟩

/-- A one-column one-row CSV relation on which the pipeline completes. -/
def tinyRawRel : Relation := ⟨[("a", "VARCHAR")], [[Val.str "5"]]⟩

/-- The final relation the pipeline produces from `tinyRawRel`. -/
def tinyFinalRel : Relation := ⟨[("a", "INTEGER")], [[Val.int 5]]⟩

/- ### Helper lemmas: characters and the sanitizer -/

/-- Packing a valid scalar value and reading it back. -/
theorem charOfNat_toNat (n : Nat) (h : n < 55296) : (Char.ofNat n).toNat = n := by
  have hv : n.isValidChar := Or.inl h
  simp only [Char.ofNat, dif_pos hv]
  rfl

/-- Scalar value of the lowercased character. -/
theorem toNat_pyToLower (c : Char) :
    (pyToLower c).toNat =
      if 65 ≤ c.toNat ∧ c.toNat ≤ 90 then c.toNat + 32 else c.toNat := by
  by_cases h : 65 ≤ c.toNat ∧ c.toNat ≤ 90
  · rw [pyToLower, if_pos h, if_pos h, charOfNat_toNat]
    omega
  · rw [pyToLower, if_neg h, if_neg h]

/-- Lowercasing fixes non-uppercase characters. -/
theorem pyToLower_eq_self (c : Char) (h : isUpperA c = false) :
    pyToLower c = c := by
  rw [pyToLower, if_neg]
  simpa [isUpperA] using h

/-- Characters with different scalar values differ. -/
theorem char_ne_of_toNat_ne {c d : Char} (h : c.toNat ≠ d.toNat) : c ≠ d :=
  fun he => h (congrArg Char.toNat he)

/-- Lowercasing never produces an uppercase character. -/
theorem isUpperA_pyToLower (c : Char) : isUpperA (pyToLower c) = false := by
  have ht := toNat_pyToLower c
  by_cases h : 65 ≤ c.toNat ∧ c.toNat ≤ 90
  · rw [if_pos h] at ht
    simp only [isUpperA, decide_eq_false_iff_not]
    omega
  · rw [if_neg h] at ht
    simp only [isUpperA, decide_eq_false_iff_not]
    omega

/-- Lowercasing preserves the kept-character class. -/
theorem keepChar_pyToLower (c : Char) (h : keepChar c = true) :
    keepChar (pyToLower c) = true := by
  have ht := toNat_pyToLower c
  by_cases hu : 65 ≤ c.toNat ∧ c.toNat ≤ 90
  · rw [if_pos hu] at ht
    simp only [keepChar, isWordCharA, isSpaceA, Bool.or_eq_true,
      decide_eq_true_eq]
    left
    omega
  · rwa [pyToLower_eq_self c
      (by simp only [isUpperA, decide_eq_false_iff_not]; exact hu)]

/-- Lowercasing a non-space character cannot give a space. -/
theorem pyToLower_ne_space (c : Char) (h : c ≠ ' ') : pyToLower c ≠ ' ' := by
  have ht := toNat_pyToLower c
  by_cases hu : 65 ≤ c.toNat ∧ c.toNat ≤ 90
  · rw [if_pos hu] at ht
    apply char_ne_of_toNat_ne
    rw [ht]
    intro hh
    simp at hh
    omega
  · rwa [pyToLower_eq_self c
      (by simp only [isUpperA, decide_eq_false_iff_not]; exact hu)]

/-- Space replacement preserves the kept-character class. -/
theorem keepChar_replaceSpace (c : Char) (h : keepChar c = true) :
    keepChar (replaceSpace c) = true := by
  rw [replaceSpace]
  by_cases hc : c = ' '
  · rw [if_pos hc]; decide
  · rwa [if_neg hc]

/-- Space replacement never outputs a space. -/
theorem replaceSpace_ne_space (c : Char) : replaceSpace c ≠ ' ' := by
  rw [replaceSpace]
  by_cases hc : c = ' '
  · rw [if_pos hc]; decide
  · rwa [if_neg hc]

/-- `stripUnderscores` is a left strip followed by a right strip. -/
theorem stripUnderscores_eq_rdrop (l : List Char) :
    stripUnderscores l =
      List.rdropWhile (fun c => c = '_')
        (List.dropWhile (fun c => c = '_') l) := rfl

/-- Stripping only removes characters. -/
theorem mem_stripUnderscores {c : Char} {l : List Char}
    (h : c ∈ stripUnderscores l) : c ∈ l := by
  rw [stripUnderscores_eq_rdrop] at h
  exact (List.dropWhile_sublist _).subset
    ((List.rdropWhile_prefix _ _).sublist.subset h)

/-- Head of a `dropWhile` fails the predicate. -/
theorem dropWhile_head_false {p : Char → Bool} {l : List Char} {c : Char}
    (h : (List.dropWhile p l).head? = some c) : p c = false := by
  have := List.head?_dropWhile_not p l
  rw [h] at this
  exact this

/-- A list whose head fails the predicate is fixed by `dropWhile`. -/
theorem dropWhile_eq_self_of_head {p : Char → Bool} {l : List Char}
    (h : ∀ c, l.head? = some c → p c = false) : List.dropWhile p l = l := by
  cases l with
  | nil => rfl
  | cons c t =>
    rw [List.dropWhile_cons, if_neg]
    simp [h c rfl]

/-- Underscore stripping is idempotent. -/
theorem stripUnderscores_idem (l : List Char) :
    stripUnderscores (stripUnderscores l) = stripUnderscores l := by
  rw [stripUnderscores_eq_rdrop, stripUnderscores_eq_rdrop]
  have h1 : List.dropWhile (fun c => c = '_')
      (List.rdropWhile (fun c => c = '_')
        (List.dropWhile (fun c => c = '_') l)) =
      List.rdropWhile (fun c => c = '_')
        (List.dropWhile (fun c => c = '_') l) := by
    apply dropWhile_eq_self_of_head
    intro c hc
    rcases hp : List.rdropWhile (fun c => c = '_')
        (List.dropWhile (fun c => c = '_') l) with _ | ⟨d, t⟩
    · rw [hp] at hc
      exact absurd hc (by simp)
    · rw [hp] at hc
      simp only [List.head?_cons, Option.some_inj] at hc
      rcases List.rdropWhile_prefix (fun c => c = '_')
          (List.dropWhile (fun c => c = '_') l) with ⟨s, hs⟩
      rw [hp] at hs
      have hh : (List.dropWhile (fun c => c = '_') l).head? = some d := by
        rw [← hs]
        rfl
      have hd := dropWhile_head_false hh
      rw [← hc]
      exact hd
  rw [h1, List.rdropWhile_idempotent]

/-- The head surviving the strip is not an underscore. -/
theorem stripUnderscores_head {l : List Char} {c : Char}
    (h : (stripUnderscores l).head? = some c) : c ≠ '_' := by
  rw [stripUnderscores_eq_rdrop] at h
  rcases hp : List.rdropWhile (fun c => c = '_')
      (List.dropWhile (fun c => c = '_') l) with _ | ⟨d, t⟩
  · rw [hp] at h
    exact absurd h (by simp)
  · rw [hp] at h
    simp only [List.head?_cons, Option.some_inj] at h
    rcases List.rdropWhile_prefix (fun c => c = '_')
        (List.dropWhile (fun c => c = '_') l) with ⟨s, hs⟩
    rw [hp] at hs
    have hh : (List.dropWhile (fun c => c = '_') l).head? = some d := by
      rw [← hs]
      rfl
    have hd := dropWhile_head_false hh
    rw [← h]
    simpa using hd

/-- The last character surviving the strip is not an underscore. -/
theorem stripUnderscores_getLast {l : List Char} {c : Char}
    (h : (stripUnderscores l).getLast? = some c) : c ≠ '_' := by
  rw [stripUnderscores_eq_rdrop] at h
  have hne : List.rdropWhile (fun c => c = '_')
      (List.dropWhile (fun c => c = '_') l) ≠ [] := by
    intro he
    rw [he] at h
    exact absurd h (by simp)
  have hlast := List.rdropWhile_last_not (fun c => c = '_')
    (List.dropWhile (fun c => c = '_') l) hne
  rw [List.getLast?_eq_getLast _ hne, Option.some_inj] at h
  rw [← h]
  simpa using hlast

/-- Every character produced by the ASCII chain is kept, is not a space and
is not uppercase. -/
theorem sanitizeCharsAscii_mem_spec {c : Char} {l : List Char}
    (h : c ∈ sanitizeCharsAscii l) :
    keepChar c = true ∧ c ≠ ' ' ∧ isUpperA c = false := by
  have hm : c ∈ ((l.filter keepChar).map replaceSpace).map pyToLower :=
    mem_stripUnderscores h
  rcases List.mem_map.mp hm with ⟨b, hb, hbc⟩
  rcases List.mem_map.mp hb with ⟨a, ha, hab⟩
  have hka : keepChar a = true := (List.mem_filter.mp ha).2
  subst hbc
  subst hab
  refine ⟨keepChar_pyToLower _ (keepChar_replaceSpace _ hka), ?_,
    isUpperA_pyToLower _⟩
  exact pyToLower_ne_space _ (replaceSpace_ne_space a)

/-- ASCII survives space replacement. -/
theorem isAsciiChar_replaceSpace (c : Char) (h : isAsciiChar c = true) :
    isAsciiChar (replaceSpace c) = true := by
  rw [replaceSpace]
  by_cases hc : c = ' '
  · rw [if_pos hc]; decide
  · rwa [if_neg hc]

/-- ASCII survives lowercasing. -/
theorem isAsciiChar_pyToLower (c : Char) (h : isAsciiChar c = true) :
    isAsciiChar (pyToLower c) = true := by
  have ht := toNat_pyToLower c
  simp only [isAsciiChar, decide_eq_true_eq] at h
  simp only [isAsciiChar, decide_eq_true_eq]
  by_cases hu : 65 ≤ c.toNat ∧ c.toNat ≤ 90
  · rw [if_pos hu] at ht
    omega
  · rw [if_neg hu] at ht
    omega

/-- On an ASCII character Python lowercasing is the single-character map. -/
theorem pyLowerChar_ascii (c : Char) (h : isAsciiChar c = true) :
    pyLowerChar c = [pyToLower c] := by
  simp only [isAsciiChar, decide_eq_true_eq] at h
  rw [pyLowerChar, if_neg (by omega)]
  by_cases hu : 65 ≤ c.toNat ∧ c.toNat ≤ 90
  · rw [if_pos hu, pyToLower, if_pos hu]
  · rw [if_neg hu, pyToLower, if_neg hu]

/-- On all-ASCII lists the lowercase expansion is a plain map. -/
theorem flatMap_pyLowerChar_eq_map (l : List Char)
    (h : ∀ c ∈ l, isAsciiChar c = true) :
    l.flatMap pyLowerChar = l.map pyToLower := by
  induction l with
  | nil => rfl
  | cons c t ih =>
    rw [List.flatMap_cons, List.map_cons,
      pyLowerChar_ascii c (h c (List.mem_cons_self c t)),
      ih (fun d hd => h d (List.mem_cons_of_mem c hd))]
    rfl

/-- On all-ASCII input the sanitizer is its ASCII chain. -/
theorem sanitizeChars_eq_ascii (l : List Char)
    (h : ∀ c ∈ l, isAsciiChar c = true) :
    sanitizeChars l = sanitizeCharsAscii l := by
  rw [sanitizeChars, sanitizeCharsAscii, flatMap_pyLowerChar_eq_map]
  intro c hc
  rcases List.mem_map.mp hc with ⟨a, ha, hab⟩
  rw [← hab]
  exact isAsciiChar_replaceSpace a (h a (List.mem_filter.mp ha).1)

/-- The ASCII chain outputs ASCII on ASCII input. -/
theorem sanitizeCharsAscii_ascii {c : Char} {l : List Char}
    (hl : ∀ d ∈ l, isAsciiChar d = true) (h : c ∈ sanitizeCharsAscii l) :
    isAsciiChar c = true := by
  have hm : c ∈ ((l.filter keepChar).map replaceSpace).map pyToLower :=
    mem_stripUnderscores h
  rcases List.mem_map.mp hm with ⟨b, hb, hbc⟩
  rcases List.mem_map.mp hb with ⟨a, ha, hab⟩
  rw [← hbc, ← hab]
  exact isAsciiChar_pyToLower _
    (isAsciiChar_replaceSpace a (hl a (List.mem_filter.mp ha).1))

/-- The keep-filter fixes ASCII-chain output. -/
theorem filter_keep_sanitizeChars (l : List Char) :
    (sanitizeCharsAscii l).filter keepChar = sanitizeCharsAscii l :=
  List.filter_eq_self.mpr (fun _ hc => (sanitizeCharsAscii_mem_spec hc).1)

/-- Space replacement fixes ASCII-chain output. -/
theorem map_replace_sanitizeChars (l : List Char) :
    (sanitizeCharsAscii l).map replaceSpace = sanitizeCharsAscii l := by
  refine (List.map_congr_left ?_).trans (List.map_id _)
  intro a ha
  rw [replaceSpace, if_neg (sanitizeCharsAscii_mem_spec ha).2.1]
  rfl

/-- Lowercasing fixes ASCII-chain output. -/
theorem map_lower_sanitizeChars (l : List Char) :
    (sanitizeCharsAscii l).map pyToLower = sanitizeCharsAscii l := by
  refine (List.map_congr_left ?_).trans (List.map_id _)
  intro a ha
  rw [pyToLower_eq_self a (sanitizeCharsAscii_mem_spec ha).2.2]
  rfl

/-- The ASCII chain is idempotent. -/
theorem sanitizeCharsAscii_idem (l : List Char) :
    sanitizeCharsAscii (sanitizeCharsAscii l) = sanitizeCharsAscii l := by
  conv_lhs => rw [sanitizeCharsAscii, filter_keep_sanitizeChars,
    map_replace_sanitizeChars, map_lower_sanitizeChars]
  conv_lhs => rw [sanitizeCharsAscii]
  rw [stripUnderscores_idem]
  conv_rhs => rw [sanitizeCharsAscii]

/-- The full sanitizer is idempotent on all-ASCII character lists. -/
theorem sanitizeChars_idem_ascii (l : List Char)
    (h : ∀ c ∈ l, isAsciiChar c = true) :
    sanitizeChars (sanitizeChars l) = sanitizeChars l := by
  rw [sanitizeChars_eq_ascii l h,
    sanitizeChars_eq_ascii (sanitizeCharsAscii l)
      (fun c hc => sanitizeCharsAscii_ascii h hc),
    sanitizeCharsAscii_idem]

/- ### Helper lemmas: the store and stage dimensions -/

/-- Reading back the relation just written. -/
theorem getRelD_setRel_same (st : Store) (n : String) (r : Relation) :
    getRelD (setRel st n r) n = r := by
  simp [getRelD, setRel]

/-- Writing one relation leaves the others unchanged. -/
theorem getRelD_setRel_ne (st : Store) {m n : String} (r : Relation)
    (h : m ≠ n) : getRelD (setRel st n r) m = getRelD st m := by
  simp [getRelD, setRel, h]

/-- Dropping all-null columns cannot increase the column count. -/
theorem ncols_dropAllNullCols (rel : Relation) :
    ncols (dropAllNullCols rel) ≤ ncols rel := by
  rw [ncols, dropAllNullCols]
  simp only [List.length_map]
  exact le_trans (List.length_filter_le _ _) (by rw [List.length_range, ncols])

/-- Dropping all-null columns keeps every row. -/
theorem nrows_dropAllNullCols (rel : Relation) :
    nrows (dropAllNullCols rel) = nrows rel := by
  rw [nrows, dropAllNullCols, nrows]
  simp

/-- Deleting all-null rows cannot increase the row count. -/
theorem nrows_deleteAllNullRows (rel : Relation) :
    nrows (deleteAllNullRows rel) ≤ nrows rel := by
  rw [nrows, deleteAllNullRows]
  exact List.length_filter_le _ _

/-- Deleting all-null rows keeps the header. -/
theorem ncols_deleteAllNullRows (rel : Relation) :
    ncols (deleteAllNullRows rel) = ncols rel := rfl

/-- One imputation step keeps the header. -/
theorem imputeColumn_header (snap df : Relation) (c t : String) :
    (imputeColumn snap df c t).header = df.header := by
  unfold imputeColumn
  split
  · rfl
  · split <;> rfl

/-- One imputation step keeps the row count. -/
theorem imputeColumn_nrows (snap df : Relation) (c t : String) :
    (imputeColumn snap df c t).rows.length = df.rows.length := by
  unfold imputeColumn
  split
  · rfl
  · split <;> simp [fillna]

/-- The imputation fold keeps the header and the row count. -/
theorem imputeFold_dims (snap : Relation) (pairs : List (String × String)) :
    ∀ df : Relation,
      (pairs.foldl (fun df p => imputeColumn snap df p.1 p.2) df).header =
        df.header ∧
      (pairs.foldl (fun df p => imputeColumn snap df p.1 p.2) df).rows.length =
        df.rows.length := by
  induction pairs with
  | nil => intro df; exact ⟨rfl, rfl⟩
  | cons p ps ih =>
    intro df
    rcases ih (imputeColumn snap df p.1 p.2) with ⟨h1, h2⟩
    refine ⟨?_, ?_⟩
    · rw [List.foldl_cons, h1, imputeColumn_header]
    · rw [List.foldl_cons, h2, imputeColumn_nrows]

/-- Imputation keeps the header. -/
theorem imputeRelation_header (types : List String) (rel : Relation) :
    (imputeRelation types rel).header = rel.header := by
  rw [imputeRelation]
  exact (imputeFold_dims rel _ rel).1

/-- Imputation keeps the row count. -/
theorem imputeRelation_nrows (types : List String) (rel : Relation) :
    nrows (imputeRelation types rel) = nrows rel := by
  rw [imputeRelation, nrows, nrows]
  exact (imputeFold_dims rel _ rel).2

/-- One successful column migration keeps both dimensions. -/
theorem migrateColumn_dims (du : DateUtil) (rel : Relation) (c : String)
    (rel2 : Relation) (h : migrateColumn du rel c = Except.ok rel2) :
    ncols rel2 = ncols rel ∧ nrows rel2 = nrows rel := by
  rw [migrateColumn] at h
  rcases hf : rel.header.findIdx? (fun p => p.1 = c) with _ | i
  · rw [hf] at h
    simp only [Except.ok.injEq] at h
    rw [← h]
    exact ⟨rfl, rfl⟩
  · rw [hf] at h
    simp only at h
    have hi : i < rel.header.length :=
      (List.findIdx?_eq_some_iff_findIdx_eq.mp hf).1
    rcases ht : inferColumnType du (sampleCol rel i) with e | t
    · rw [ht] at h
      exact absurd h (by simp)
    · rw [ht] at h
      simp only [Except.ok.injEq] at h
      rw [← h]
      constructor
      · rw [ncols, ncols]
        simp only [List.length_append, List.length_eraseIdx_of_lt hi,
          List.length_cons, List.length_nil]
        omega
      · rw [nrows, nrows]
        simp

/-- A successful migration loop keeps both dimensions. -/
theorem migrateAll_dims (du : DateUtil) (cs : List String) :
    ∀ rel rel2 : Relation, migrateAll du rel cs = Except.ok rel2 →
      ncols rel2 = ncols rel ∧ nrows rel2 = nrows rel := by
  induction cs with
  | nil =>
    intro rel rel2 h
    rw [migrateAll] at h
    simp only [Except.ok.injEq] at h
    rw [← h]
    exact ⟨rfl, rfl⟩
  | cons c cs ih =>
    intro rel rel2 h
    rw [migrateAll] at h
    rcases hm : migrateColumn du rel c with e | relm
    · rw [hm] at h
      exact absurd h (by simp)
    · rw [hm] at h
      rcases migrateColumn_dims du rel c relm hm with ⟨h1, h2⟩
      rcases ih relm rel2 h with ⟨h3, h4⟩
      exact ⟨h3.trans h1, h4.trans h2⟩

/-- The missing-data handler cannot increase either dimension of the
relation it hands on. -/
theorem handle_missing_data_dims (st : Store) (n : String) :
    ncols (getRelD (handle_missing_data st n).1 (handle_missing_data st n).2) ≤
      ncols (getRelD st n) ∧
    nrows (getRelD (handle_missing_data st n).1 (handle_missing_data st n).2) ≤
      nrows (getRelD st n) := by
  rw [handle_missing_data]
  by_cases h1 : (dropAllNullCols (getRelD st n)).header.isEmpty
  · rw [if_pos h1]
    simp only [getRelD_setRel_same]
    exact ⟨ncols_dropAllNullCols _, le_of_eq (nrows_dropAllNullCols _)⟩
  · rw [if_neg h1]
    by_cases h2 :
        (deleteAllNullRows (dropAllNullCols (getRelD st n))).rows.isEmpty
    · rw [if_pos h2]
      simp only [getRelD_setRel_same]
      refine ⟨le_trans (le_of_eq (ncols_deleteAllNullRows _))
        (ncols_dropAllNullCols _), ?_⟩
      exact le_trans (nrows_deleteAllNullRows _)
        (le_of_eq (nrows_dropAllNullCols _))
    · rw [if_neg h2]
      simp only [getRelD_setRel_same]
      constructor
      · rw [ncols, imputeRelation_header]
        exact le_trans (le_of_eq (ncols_deleteAllNullRows _))
          (ncols_dropAllNullCols _)
      · rw [imputeRelation_nrows]
        exact le_trans (nrows_deleteAllNullRows _)
          (le_of_eq (nrows_dropAllNullCols _))

/-- The outlier filter keeps the header and cannot add rows. -/
theorem handle_outliers_dims (st : Store) (n : String) (t : Rat) :
    ncols (getRelD (handle_outliers st n t).1 (handle_outliers st n t).2) ≤
      ncols (getRelD st n) ∧
    nrows (getRelD (handle_outliers st n t).1 (handle_outliers st n t).2) ≤
      nrows (getRelD st n) := by
  rw [handle_outliers]
  simp only [getRelD_setRel_same]
  by_cases hc : (outlierClauses (getRelD st n)).isEmpty
  · rw [if_pos hc]
    exact ⟨le_refl _, le_refl _⟩
  · rw [if_neg hc]
    exact ⟨le_refl _, List.length_filter_le _ _⟩

/-- Sanitizing the header changes neither dimension. -/
theorem sanitizeHeader_dims (rel : Relation) :
    ncols (sanitizeHeader rel) = ncols rel ∧
    nrows (sanitizeHeader rel) = nrows rel := by
  rw [sanitizeHeader]
  constructor
  · rw [ncols, ncols]
    simp
  · rfl

/-- Appending the copy suffix always changes the name. -/
theorem append_cleaned_ne (name : String) : name ++ "_cleaned" ≠ name := by
  intro he
  have hl := congrArg String.length he
  rw [String.length_append] at hl
  have h8 : ("_cleaned" : String).length = 8 := rfl
  omega

/- ### Claim theorems -/

/-- Claim C1, counterexample. The claim says that on the single numeric
column [9, 10, 11, 10, 100000] the outlier filter with its default
threshold 3 deletes the row containing 100000 and keeps the other four.
In fact the rows after filtering are not the four claimed survivors: with
five values no sample z-score can reach 3 (the maximum attainable is
(n-1)/sqrt n = 4/sqrt 5 < 1.79), so nothing is deleted. -/
theorem c1_outlier_counterexample :
    (getRelD (handle_outliers scenario3Store "t" 3).1 "t").rows ≠
      [[Val.int 9], [Val.int 10], [Val.int 11], [Val.int 10]] := by
  decide

/-- Claim C1, amended. Running the outlier filter on the column
[9, 10, 11, 10, 100000] with the default threshold 3 retains all five rows
(the relation is unchanged); the row containing 100000 is deleted, and the
other four retained, only at a lower threshold such as 3/2, which lies
below its z-score of about 1.79. -/
theorem c1_outlier_amended :
    getRelD (handle_outliers scenario3Store "t" 3).1 "t" = scenario3Rel ∧
    (getRelD (handle_outliers scenario3Store "t" (3 / 2)).1 "t").rows =
      [[Val.int 9], [Val.int 10], [Val.int 11], [Val.int 10]] := by
  exact ⟨by decide, by decide⟩

/-- Claim C2, code evaluation at the failing input. On an 11 x 11 integer
relation with 1 on the diagonal and 0 elsewhere, cleaning removes every
row (each row is a z-score outlier in its own diagonal column), after which
`infer_column_type` divides by the empty sample size: the pipeline aborts
with the modelled ZeroDivisionError instead of completing normally with an
empty relation as the claim requires. -/
theorem c2_empty_dataset_code_bug :
    pipelineFinal duNone emptyStore diagRel "up" = none := by
  decide

/-- Claim C3, code evaluation at the failing input. In the relation with
columns c1 = [a, NULL, NULL] and c2 = [x, y, z], the most frequent
non-null value of c1 is "a", so the claim prescribes imputing "a". The
handler instead groups NULLs too; the NULL group wins, `mode_value` is
None, the truthiness test fails, and the empty string is imputed. -/
theorem c3_mode_imputation_code_bug :
    getRelD (handle_missing_data (mkStore [("t", modeBugRel)]) "t").1
        "t_cleaned" =
      ⟨[("c1", "VARCHAR"), ("c2", "VARCHAR")],
       [[Val.str "a", Val.str "x"], [Val.str "", Val.str "y"],
        [Val.str "", Val.str "z"]]⟩ := by
  decide

/-- Claim C4, counterexample. On a two-column input whose first column is
entirely NULL (and whose second is not, so every ALTER DROP is legal), the
handler does return a distinct relation "t_cleaned", but it does not leave
the input unchanged: the input relation has lost its all-null column in
place. -/
theorem c4_handler_counterexample :
    (handle_missing_data (mkStore [("t", mutateRel)]) "t").2 = "t_cleaned" ∧
    getRelD (handle_missing_data (mkStore [("t", mutateRel)]) "t").1 "t" ≠
      mutateRel := by
  exact ⟨by decide, by decide⟩

/-- Claim C4, amended. When at least one column and one row survive the
drops — the only case reachable against the engine, which refuses to drop a
table's last column, so the source's empty-relation early returns are dead
code — the handler returns a new relation named by appending "_cleaned",
distinct from its input, holding an imputed copy of the surviving data
(same columns and row count); but it does not leave the input unchanged:
the input relation is mutated in place by the all-null column drops and
all-null row deletes, and only the imputation is confined to the copy. -/
theorem c4_handler_amended (st : Store) (name : String)
    (hcols : ¬(dropAllNullCols (getRelD st name)).header.isEmpty)
    (hrows :
      ¬(deleteAllNullRows (dropAllNullCols (getRelD st name))).rows.isEmpty) :
    (handle_missing_data st name).2 = name ++ "_cleaned" ∧
    (handle_missing_data st name).2 ≠ name ∧
    getRelD (handle_missing_data st name).1 name =
      deleteAllNullRows (dropAllNullCols (getRelD st name)) ∧
    (getRelD (handle_missing_data st name).1 (name ++ "_cleaned")).header =
      (deleteAllNullRows (dropAllNullCols (getRelD st name))).header ∧
    nrows (getRelD (handle_missing_data st name).1 (name ++ "_cleaned")) =
      nrows (deleteAllNullRows (dropAllNullCols (getRelD st name))) := by
  rw [handle_missing_data, if_neg hcols, if_neg hrows]
  refine ⟨rfl, append_cleaned_ne name, ?_, ?_, ?_⟩
  · rw [getRelD_setRel_ne _ _ (Ne.symm (append_cleaned_ne name)),
      getRelD_setRel_same]
  · rw [getRelD_setRel_same, imputeRelation_header]
  · rw [getRelD_setRel_same, imputeRelation_nrows]

/-- Claim C4, witness: the amended statement instantiated on a concrete
two-column relation with some NULLs but no all-null column or row. -/
theorem c4_handler_amended_witness :
    (handle_missing_data (mkStore [("t", mainPathRel)]) "t").2 =
      "t" ++ "_cleaned" ∧
    (handle_missing_data (mkStore [("t", mainPathRel)]) "t").2 ≠ "t" ∧
    getRelD (handle_missing_data (mkStore [("t", mainPathRel)]) "t").1 "t" =
      deleteAllNullRows (dropAllNullCols
        (getRelD (mkStore [("t", mainPathRel)]) "t")) ∧
    (getRelD (handle_missing_data (mkStore [("t", mainPathRel)]) "t").1
        ("t" ++ "_cleaned")).header =
      (deleteAllNullRows (dropAllNullCols
        (getRelD (mkStore [("t", mainPathRel)]) "t"))).header ∧
    nrows (getRelD (handle_missing_data (mkStore [("t", mainPathRel)]) "t").1
        ("t" ++ "_cleaned")) =
      nrows (deleteAllNullRows (dropAllNullCols
        (getRelD (mkStore [("t", mainPathRel)]) "t"))) :=
  c4_handler_amended (mkStore [("t", mainPathRel)]) "t" (by decide) (by decide)

/-- Claim C5, counterexample. On the name "a  b\tc" the sanitizer does not
perform the claimed whitespace-run collapse: it turns each space into its
own underscore and leaves the tab untouched, giving "a__b\tc", while the
claimed transform gives "a_b_c". -/
theorem c5_sanitizer_counterexample :
    sanitize_column_name "a  b\tc" ≠ specSanitizeName "a  b\tc" ∧
    sanitize_column_name "a  b\tc" = "a__b\tc" ∧
    specSanitizeName "a  b\tc" = "a_b_c" := by
  refine ⟨?_, ?_, ?_⟩ <;> decide

/-- Claim C5, amended. For every ASCII input string, the sanitizer keeps
only word characters, underscores and whitespace, replaces each space
character (not each whitespace run) by one underscore, lowercases, and
strips leading and trailing underscores; consequently every output
character is a non-uppercase word character or non-space whitespace, and
the output neither starts nor ends with an underscore. (For non-ASCII
input the shape clause fails in Python: lower() can emit a combining mark
that is neither a word character nor whitespace, as in U+0130 → i +
U+0307, exhibited by the Claim C6 counterexample.) -/
theorem c5_sanitizer_amended (s : String) (c : Char)
    (hascii : s.data.all isAsciiChar = true)
    (h : c ∈ (sanitize_column_name s).data) :
    (keepChar c = true ∧ c ≠ ' ' ∧ isUpperA c = false) ∧
    (sanitize_column_name s).data.head? ≠ some '_' ∧
    (sanitize_column_name s).data.getLast? ≠ some '_' := by
  have heq : sanitizeChars s.data = sanitizeCharsAscii s.data :=
    sanitizeChars_eq_ascii s.data
      (fun d hd => List.all_eq_true.mp hascii d hd)
  have h2 : c ∈ sanitizeCharsAscii s.data := by
    rw [← heq]
    exact h
  refine ⟨sanitizeCharsAscii_mem_spec h2, ?_, ?_⟩
  · intro hh
    exact stripUnderscores_head hh rfl
  · intro hh
    exact stripUnderscores_getLast hh rfl

/-- Claim C5, witness: the amended statement instantiated at the ASCII
input "A b" and its output character a. -/
theorem c5_sanitizer_amended_witness :
    (keepChar 'a' = true ∧ 'a' ≠ ' ' ∧ isUpperA 'a' = false) ∧
    (sanitize_column_name "A b").data.head? ≠ some '_' ∧
    (sanitize_column_name "A b").data.getLast? ≠ some '_' :=
  c5_sanitizer_amended "A b" 'a' (by decide) (by decide)

/-- Claim C6, counterexample. The sanitizer is not idempotent on every
input string: on the one-character string U+0130, Python lower() expands
the character to i followed by the combining mark U+0307; the mark is kept
by lower()'s stage but is neither a word character nor whitespace, so a
second sanitization strips it, giving "i" instead of the first output. -/
theorem c6_sanitizer_counterexample :
    sanitize_column_name (sanitize_column_name dotIStr) ≠
      sanitize_column_name dotIStr := by
  decide

/-- Claim C6, amended. The sanitizer is idempotent on every all-ASCII
input string: sanitizing an already-sanitized ASCII name returns it
unchanged. (On non-ASCII input idempotence fails, as the U+0130
counterexample shows.) -/
theorem c6_sanitizer_idempotent (s : String)
    (hascii : s.data.all isAsciiChar = true) :
    sanitize_column_name (sanitize_column_name s) = sanitize_column_name s :=
  congrArg String.mk (sanitizeChars_idem_ascii s.data
    (fun d hd => List.all_eq_true.mp hascii d hd))

/-- Claim C6, witness: idempotence at the concrete ASCII input "Age ". -/
theorem c6_sanitizer_idempotent_witness :
    sanitize_column_name (sanitize_column_name "Age ") =
      sanitize_column_name "Age " :=
  c6_sanitizer_idempotent "Age " (by decide)

/-- Claim C7, confirmed. The string "2147483647" satisfies `is_integer`;
"2147483648" exceeds the signed 32-bit bound, fails `is_integer`, and
satisfies `is_float` instead. -/
theorem c7_int32_boundary :
    is_integer "2147483647" = true ∧ is_integer "2147483648" = false ∧
    is_float "2147483648" = true := by
  refine ⟨?_, ?_, ?_⟩ <;> decide

/-- Claim C8, confirmed. For every nonempty sample whose maximum per-type
success rate over INTEGER, FLOAT, DATE, BOOLEAN and VARCHAR is below 0.5,
the inferred column type is VARCHAR, whatever the external date parser
does. -/
theorem c8_below_threshold_varchar (du : DateUtil) (sample : List String)
    (h1 : sample ≠ []) (h2 : maxSuccessRate du sample < 1 / 2) :
    inferColumnType du sample = Except.ok "VARCHAR" := by
  rw [inferColumnType, if_neg (fun hh => h1 (List.length_eq_zero.mp hh)),
    if_pos h2]

/-- Claim C8, witness: the sample ["hello"] matches no predicate, so every
success rate is 0 and the inferred type is VARCHAR. -/
theorem c8_below_threshold_varchar_witness :
    (["hello"] : List String) ≠ [] ∧
    maxSuccessRate duNone ["hello"] < 1 / 2 ∧
    inferColumnType duNone ["hello"] = Except.ok "VARCHAR" :=
  ⟨by decide, by decide,
   c8_below_threshold_varchar duNone ["hello"] (by decide) (by decide)⟩

/-- Claim C9, confirmed. Whenever the pipeline completes, the row count and
the column count of the final stored relation never exceed those of the raw
parsed relation. -/
theorem c9_monotonicity (du : DateUtil) (st : Store) (raw : Relation)
    (uploadId : String) (fin : Relation)
    (h : pipelineFinal du st raw uploadId = some fin) :
    nrows fin ≤ nrows raw ∧ ncols fin ≤ ncols raw := by
  rw [pipelineFinal] at h
  rcases hc : clean_and_store_data du st raw uploadId with e | out
  · rw [hc] at h
    exact absurd h (by simp)
  · rw [hc] at h
    simp only [Option.some_inj] at h
    subst h
    rw [clean_and_store_data] at hc
    generalize hA : setRel st ("tmp_" ++ uploadId) raw = stA at hc
    generalize hB : setRel stA ("tmp_" ++ uploadId)
      (sanitizeHeader (getRelD stA ("tmp_" ++ uploadId))) = stB at hc
    generalize hHM : handle_missing_data stB ("tmp_" ++ uploadId) = hm at hc
    generalize hHO : handle_outliers hm.1 hm.2 3 = ho at hc
    rcases hi : infer_and_set_datatypes du ho.1 ho.2 with e | st3
    · rw [hi] at hc
      exact absurd hc (by simp)
    · rw [hi] at hc
      simp only [Except.ok.injEq] at hc
      rw [infer_and_set_datatypes] at hi
      rcases hm2 : migrateAll du (getRelD ho.1 ho.2)
          ((getRelD ho.1 ho.2).header.map (fun p => p.1)) with e | rel2
      · rw [hm2] at hi
        exact absurd hi (by simp)
      · rw [hm2] at hi
        simp only [Except.ok.injEq] at hi
        have hfin : out.2.2 = rel2 := by
          rw [← hc, ← hi]
          simp only [getRelD_setRel_same]
        rcases migrateAll_dims du _ _ _ hm2 with ⟨hc2, hr2⟩
        have hod := handle_outliers_dims hm.1 hm.2 3
        rw [hHO] at hod
        have hmd := handle_missing_data_dims stB ("tmp_" ++ uploadId)
        rw [hHM] at hmd
        have hsb : getRelD stB ("tmp_" ++ uploadId) =
            sanitizeHeader (getRelD stA ("tmp_" ++ uploadId)) := by
          rw [← hB, getRelD_setRel_same]
        have hsa : getRelD stA ("tmp_" ++ uploadId) = raw := by
          rw [← hA, getRelD_setRel_same]
        rw [hsa] at hsb
        rw [hsb] at hmd
        rcases sanitizeHeader_dims raw with ⟨hsc, hsr⟩
        constructor
        · rw [hfin, hr2]
          exact le_trans hod.2 (le_trans hmd.2 (le_of_eq hsr))
        · rw [hfin, hc2]
          exact le_trans hod.1 (le_trans hmd.1 (le_of_eq hsc))

/-- Claim C9, witness: the pipeline completes on a one-column one-row CSV
and the final relation's dimensions are bounded by the raw ones. -/
theorem c9_monotonicity_witness :
    nrows tinyFinalRel ≤ nrows tinyRawRel ∧
    ncols tinyFinalRel ≤ ncols tinyRawRel :=
  c9_monotonicity duNone emptyStore tinyRawRel "up" tinyFinalRel (by decide)

/-- Claim C10, confirmed. `infer_column_type` returns a type exactly for
nonempty samples: a column with at least one non-null sampled value gets a
type, while an empty sample makes the success-rate computation divide by
zero (the modelled ZeroDivisionError) instead of returning a type. -/
theorem c10_empty_sample_division (du : DateUtil) (sample : List String) :
    (∃ t, inferColumnType du sample = Except.ok t) ↔ sample ≠ [] := by
  constructor
  · rintro ⟨t, ht⟩ he
    rw [inferColumnType, if_pos] at ht
    · exact absurd ht (by simp)
    · simp [he]
  · intro hne
    rw [inferColumnType,
      if_neg (fun hh => hne (List.length_eq_zero.mp hh))]
    by_cases hm : maxSuccessRate du sample < 1 / 2
    · exact ⟨"VARCHAR", by rw [if_pos hm]⟩
    · exact ⟨_, by rw [if_neg hm]⟩
